import Mathlib

/-!
Verification development for the PostifyAI LinkedIn post generator.

The repository contains two variants of the same three-stage pipeline
(research → strategy → generation):
* `new_main.py` — a self-contained FastAPI service (search tool, agent
  workflow and endpoint in one file), and
* `main.py` + `agent.py` + `tools.py` — the same pipeline split across
  modules.

The strategy and generation phases are textually identical in the two
variants and are embedded once.  The research phases differ (`agent.py`
stores the search tool's whole result dict into `research_data`;
`new_main.py` extracts the `research_text` string) and are embedded
separately.  External collaborators (the web-search capability and the
language model) are modelled as oracle parameters: a search oracle that
either yields the parsed result list or raises, a strategy-model oracle
that either yields the response text or raises, and a per-iteration
generation-model oracle (`none` = the call raised).  Python floats that
hold the token estimate are modelled exactly as rationals.
-/

/-! ### Python string primitives (code-point semantics, on `List Char`) -/

/-- `len(s)` for a Python `str`: number of code points. -/
def pyLen (s : String) : Nat := s.data.length

/-- `s.lower()` (ASCII letters; the keys and keywords matched in this
program are ASCII). -/
def pyLower (s : String) : String := String.mk (s.data.map Char.toLower)

/-- Does `hay` start with `needle` (on code-point lists)? -/
def startsWithCL : List Char → List Char → Bool
  | [], _ => true
  | _ :: _, [] => false
  | a :: as, b :: bs => a == b && startsWithCL as bs

/-- Substring containment on code-point lists. -/
def containsCL (needle : List Char) : List Char → Bool
  | [] => startsWithCL needle []
  | c :: rest => startsWithCL needle (c :: rest) || containsCL needle rest

/-- Python's `needle in hay` for strings (empty needle is contained). -/
def pyIn (needle hay : String) : Bool := containsCL needle.data hay.data

/-- Python's `s.strip()`: drop whitespace from both ends. -/
def pyStrip (s : String) : String :=
  String.mk (((s.data.dropWhile Char.isWhitespace).reverse.dropWhile Char.isWhitespace).reverse)

/-- Python's `s[:n]` slice: first `n` code points. -/
def pySlice (s : String) (n : Nat) : String := String.mk (s.data.take n)

/-- Counts maximal whitespace-separated words; helper for `pyWordCount`. -/
def pyWordCountAux : List Char → Bool → Nat
  | [], _ => 0
  | c :: rest, inWord =>
    if c.isWhitespace then pyWordCountAux rest false
    else (if inWord then 0 else 1) + pyWordCountAux rest true

/-- `len(s.split())`: number of whitespace-separated words. -/
def pyWordCount (s : String) : Nat := pyWordCountAux s.data false

/-- Helper for `pyTitle`: tracks whether the previous char was alphabetic. -/
def pyTitleAux : List Char → Bool → List Char
  | [], _ => []
  | c :: rest, prevAlpha =>
    (if c.isAlpha then (if prevAlpha then c.toLower else c.toUpper) else c) ::
      pyTitleAux rest c.isAlpha

/-- Python's `s.title()` (ASCII letters). -/
def pyTitle (s : String) : String := String.mk (pyTitleAux s.data false)

/-- Python's `int(x)` on a float/rational: truncation toward zero. -/
def pyInt (q : ℚ) : Int := if 0 ≤ q then ⌊q⌋ else -⌊-q⌋

/-- How an `Optional[str]` renders inside an f-string (`None` prints as "None"). -/
def pyShowOptStr : Option String → String
  | none => "None"
  | some s => s

/-! ### Data model -/

/-- Citation record of `new_main.py` / `main.py` (`Citation` pydantic model):
title, link, snippet, each a string. -/
structure Citation where
  title : String
  link : String
  snippet : String
deriving DecidableEq

/-- Citation dict built by `tools.py`'s `search_linkedin_trends`: `title` is
`result.get('title')`, which is `None` when the key is absent. -/
structure ToolsCitation where
  title : Option String
  link : String
  snippet : String
deriving DecidableEq

/-- Return dict of `tools.py`'s `search_linkedin_trends`. -/
structure ToolsSearchRet where
  research_text : String
  citations : List ToolsCitation
deriving DecidableEq

/-- Return dict of `new_main.py`'s `search_linkedin_trends`. -/
structure SearchRet where
  research_text : String
  citations : List Citation
deriving DecidableEq

/-- One parsed web-search result: the three fields read via `result.get`,
each possibly absent. -/
structure SearchItem where
  title : Option String
  link : Option String
  snippet : Option String

/-- Runtime value held by the dynamically typed `research_data` state field:
`new_main.py` stores a string there, `agent.py` stores the whole search
result dict. -/
inductive ResearchVal where
  | str (s : String)
  | dict (d : ToolsSearchRet)
deriving DecidableEq

/-- Is the stored `research_data` a string? -/
def ResearchVal.isStr : ResearchVal → Bool
  | .str _ => true
  | .dict _ => false

/-- Python truthiness of the stored `research_data` value.  The dict variants
built by the search tool always carry the two keys `research_text` and
`citations`, so a stored dict is always truthy. -/
def ResearchVal.truthy : ResearchVal → Bool
  | .str s => !(s == "")
  | .dict _ => true

/-- `bool(state.get("research_data"))`: `None` is falsy. -/
def researchTruthy : Option ResearchVal → Bool
  | none => false
  | some v => v.truthy

/-- One generated post (`LinkedInPost` pydantic model / the dict built by the
generation loop — the API boundary copies the dict fields one-to-one). -/
structure Post where
  content : String
  hashtags : List String
  cta : String
  estimated_engagement : String
  tone_used : String
deriving DecidableEq

/-- The `AgentState` TypedDict threaded through the pipeline.  `messages` is
never read or written by any phase and is omitted.  `post_count` is an
unvalidated Python `int`, hence `Int`.  `tokens_used` is a Python float that
only ever holds exact multiples of 0.1; it is modelled as a rational. -/
structure AgentState where
  topic : String
  tone : String
  audience : String
  length : String
  include_hashtags : Bool
  include_cta : Bool
  post_count : Int
  language : String
  research_data : Option ResearchVal
  post_strategy : Option String
  generated_posts : List Post
  tokens_used : ℚ
  citations : List Citation
deriving DecidableEq

/-- Python exceptions that the embedded code can raise. -/
inductive PyErr where
  | keyError (key : String)
  | typeError (msg : String)
  | modelError (msg : String)
  | httpException (code : Nat) (detail : String)
deriving DecidableEq

/-- `str(e)` for the modelled exceptions.  `str(KeyError(k))` is the repr of
the key; `str(HTTPException(code, detail))` is `"{code}: {detail}"`
(starlette). -/
def pyErrStr : PyErr → String
  | .keyError k => "\x27" ++ k ++ "\x27"
  | .typeError m => m
  | .modelError m => m
  | .httpException code detail => toString code ++ ": " ++ detail

/-! ### Hashtag Lookup (`analyze_hashtag_performance`, identical in
`tools.py` and `new_main.py`) -/

/-- The fixed default list returned when no key matches. -/
def defaultTags : List String :=
  ["#LinkedIn", "#Professional", "#Insights", "#Growth", "#Success"]

/-- The fixed ordered `hashtag_map` table (Python dicts preserve insertion
order, so iteration visits the keys in this order). -/
def hashtag_map : List (String × List String) :=
  [("startup", ["#StartupLife", "#Entrepreneurship", "#Innovation", "#TechStartup", "#ScaleUp"]),
   ("ai", ["#ArtificialIntelligence", "#MachineLearning", "#AI", "#TechInnovation", "#FutureOfWork"]),
   ("marketing", ["#Marketing", "#DigitalMarketing", "#ContentMarketing", "#MarketingStrategy", "#GrowthHacking"]),
   ("leadership", ["#Leadership", "#Management", "#ExecutiveLeadership", "#TeamBuilding", "#WorkplaceCulture"]),
   ("technology", ["#Technology", "#TechTrends", "#Innovation", "#DigitalTransformation", "#TechLeadership"]),
   ("career", ["#CareerGrowth", "#ProfessionalDevelopment", "#CareerAdvice", "#JobSearch", "#NetworkingTips"])]

/-- The `for key, tags in hashtag_map.items()` loop:
`if key.lower() in topic.lower(): return tags`, else fall through to the
default list. -/
def lookupTags : List (String × List String) → String → List String
  | [], _ => defaultTags
  | (key, tags) :: rest, topic =>
    if pyIn (pyLower key) (pyLower topic) then tags else lookupTags rest topic

/-- `analyze_hashtag_performance(topic)`. -/
def analyze_hashtag_performance (topic : String) : List String :=
  lookupTags hashtag_map topic

/-! ### Trend Research (`search_linkedin_trends`, two variants) -/

/-- `tools.py` result loop: builds the citation dicts and the numbered
research text for all results (`enumerate(results)`, no cap, no
truncation); `title` keeps the possibly-missing value from
`result.get('title')`. -/
def Tools.buildEntries : List SearchItem → Nat → List ToolsCitation × String
  | [], _ => ([], "")
  | it :: rest, i =>
    let title := it.title
    let link := it.link.getD ""
    let snippet := it.snippet.getD ""
    let (cs, txt) := Tools.buildEntries rest (i + 1)
    (⟨title, link, snippet⟩ :: cs,
     (toString (i + 1) ++ ". " ++ pyShowOptStr title ++ "\n" ++ snippet ++ "\n\n") ++ txt)

/-- `tools.py`'s `search_linkedin_trends(topic)`.  The oracle `web` yields
the parsed JSON result list, or the message of whatever exception the
search/parse raised; the surrounding `try/except` turns any such exception
into the degraded return value, so the function itself is total. -/
def Tools.search_linkedin_trends (topic : String)
    (web : Except String (List SearchItem)) : ToolsSearchRet :=
  match web with
  | .error e => { research_text := "Search unavailable for " ++ topic ++ ": " ++ e
                  citations := [] }
  | .ok results =>
    let (cs, txt) := Tools.buildEntries results 0
    { research_text := ("Research findings for " ++ topic ++ ":\n\n") ++ txt
      citations := cs }

/-- `new_main.py` result loop over `results[:3]`: `title` defaults to
"Untitled", the text entry truncates the snippet to 200 chars and appends
"...". -/
def NewMain.buildEntries : List SearchItem → Nat → List Citation × String
  | [], _ => ([], "")
  | it :: rest, i =>
    let title := it.title.getD "Untitled"
    let link := it.link.getD ""
    let snippet := it.snippet.getD ""
    let (cs, txt) := NewMain.buildEntries rest (i + 1)
    (⟨title, link, snippet⟩ :: cs,
     (toString (i + 1) ++ ". " ++ title ++ "\n" ++ pySlice snippet 200 ++ "...\n\n") ++ txt)

/-- `new_main.py`'s `search_linkedin_trends(topic)`: top 3 results, research
text truncated to 1000 chars; same degraded return on any failure. -/
def NewMain.search_linkedin_trends (topic : String)
    (web : Except String (List SearchItem)) : SearchRet :=
  match web with
  | .error e => { research_text := "Search unavailable for " ++ topic ++ ": " ++ e
                  citations := [] }
  | .ok results =>
    let (cs, txt) := NewMain.buildEntries (results.take 3) 0
    { research_text := pySlice (("Research findings for " ++ topic ++ ":\n\n") ++ txt) 1000
      citations := cs }

/-! ### Research phase (the two variants differ here) -/

/-- `agent.py`'s `research_phase`: stores the whole value returned by the
tool call into `research_data` (the tool returns a dict) and never touches
`citations`.  `toolRaises` models the only way the `except` branch can
fire: the tool-call mechanism itself raising (the tool's own body is fully
wrapped in `try/except` and cannot raise). -/
def AgentMod.research_phase (toolRaises : Bool)
    (web : Except String (List SearchItem)) (st : AgentState) : AgentState :=
  if toolRaises then
    { st with research_data := some (.str ("General insights about " ++ st.topic)) }
  else
    { st with research_data := some (.dict (Tools.search_linkedin_trends st.topic web)) }

/-- `new_main.py`'s `research_phase`: extracts `research_text` and
`citations` from the tool's return dict; on an exception from the tool
call, stores the generic placeholder string and empties `citations`. -/
def NewMain.research_phase (toolRaises : Bool)
    (web : Except String (List SearchItem)) (st : AgentState) : AgentState :=
  if toolRaises then
    { st with research_data := some (.str ("General insights about " ++ st.topic))
              citations := [] }
  else
    let r := NewMain.search_linkedin_trends st.topic web
    { st with research_data := some (.str r.research_text)
              citations := r.citations }

/-! ### Strategy phase (identical in `agent.py` and `new_main.py`) -/

/-- `strategy_phase`: one unguarded model call; on success stores the
response text and adds `len(response.split()) * 1.3` to `tokens_used`; a
model failure propagates (no `try/except` here). -/
def strategy_phase (model : Except String String) (st : AgentState) :
    Except PyErr AgentState :=
  match model with
  | .error e => .error (.modelError e)
  | .ok content =>
    .ok { st with post_strategy := some content
                  tokens_used := st.tokens_used + (pyWordCount content : ℚ) * (13 / 10) }

/-! ### Generation phase (identical in `agent.py` and `new_main.py`) -/

/-- The five fixed approach names of `post_prompts`, in order. -/
def postApproaches : List String :=
  ["Story/Personal Experience", "Data/Insights", "Question/Engagement",
   "How-to/Educational", "Industry Trends"]

/-- `post_prompts[i % len(post_prompts)]["approach"]`. -/
def approachOf (i : Nat) : String := postApproaches.getD (i % 5) ""

/-- Does the `length_guide` dict have this key?  (`short`/`medium`/`long`;
any other key raises `KeyError` when the per-post prompt is built.) -/
def lengthGuideHas (l : String) : Bool :=
  l == "short" || l == "medium" || l == "long"

/-- The `state["research_data"][:500] if state["research_data"] else ...`
expression inside the per-post prompt f-string: a falsy value gives the
placeholder, a stored string is sliced, a stored dict raises `TypeError`
(slicing a dict). -/
def researchSnippet : Option ResearchVal → Except PyErr String
  | none => .ok "No specific research data available"
  | some (.str s) =>
    .ok (if s == "" then "No specific research data available" else pySlice s 500)
  | some (.dict _) => .error (.typeError "unhashable type: \x27slice\x27")

/-- CTA selection: keyword match against the approach name, `""` when
`include_cta` is false. -/
def ctaFor (include_cta : Bool) (approach : String) : String :=
  if include_cta then
    if pyIn "question" (pyLower approach) then
      "What\x27s your experience with this? Share in the comments! 👇"
    else if pyIn "story" (pyLower approach) then
      "Can you relate? Share your own experience below!"
    else if pyIn "data" (pyLower approach) then
      "What do these insights mean for your industry? Let me know your thoughts!"
    else
      "What are your thoughts on this? I\x27d love to hear your perspective!"
  else ""

/-- Engagement heuristic on the (already stripped) post content. -/
def engagementFor (approach content : String) : String :=
  if pyIn "question" (pyLower approach) ∨ pyLen content > 200 then "high"
  else if pyLen content < 100 then "low"
  else "medium"

/-- The fixed fallback post content template. -/
def fallbackContent (topic : String) : String :=
  "🚀 Exploring " ++ topic ++
  "\n\nThis is an exciting area that\x27s transforming how we work and think. The potential applications are vast, and we\x27re just scratching the surface.\n\nKey considerations:\n• Innovation opportunities\n• Implementation challenges  \n• Future implications\n\nThe landscape is evolving rapidly, and staying informed is crucial for success."

/-- The generic fallback CTA string. -/
def fallbackCta : String := "What\x27s your take on this? Share your thoughts below!"

/-- The fallback post substituted when the model call for one post raises. -/
def fallbackPost (st : AgentState) : Post :=
  { content := fallbackContent st.topic
    hashtags := if st.include_hashtags then analyze_hashtag_performance st.topic else []
    cta := if st.include_cta then fallbackCta else ""
    estimated_engagement := "medium"
    tone_used := pyTitle st.tone }

/-- One iteration of the generation loop: builds the per-post prompt (the
`length_guide` lookup and the research-data slice can raise, outside the
`try`), then either processes the model response or, when the model call
raised (`model = none`), substitutes the fallback post.  Returns the
appended post together with the `tokens_used` increment of this
iteration. -/
def genIter (st : AgentState) (model : Option String) (i : Nat) :
    Except PyErr (Post × ℚ) :=
  if lengthGuideHas st.length then
    match researchSnippet st.research_data with
    | .error e => .error e
    | .ok _ =>
      match model with
      | some content =>
        let post_content := pyStrip content
        .ok ({ content := post_content
               hashtags := if st.include_hashtags then analyze_hashtag_performance st.topic else []
               cta := ctaFor st.include_cta (approachOf i)
               estimated_engagement := engagementFor (approachOf i) post_content
               tone_used := pyTitle st.tone },
             (pyWordCount content : ℚ) * (13 / 10))
      | none => .ok (fallbackPost st, 200)
  else .error (.keyError st.length)

/-- The `for i in range(state["post_count"])` loop, iterations `0..n-1`;
an exception in any iteration aborts the whole phase. -/
def genPosts (model : Nat → Option String) (st : AgentState) :
    Nat → Except PyErr (List (Post × ℚ))
  | 0 => .ok []
  | n + 1 =>
    match genPosts model st n with
    | .error e => .error e
    | .ok rs =>
      match genIter st (model n) n with
      | .error e => .error e
      | .ok pr => .ok (rs ++ [pr])

/-- `generation_phase`: runs the loop (`range` of a negative count is
empty, hence `Int.toNat`), then replaces `generated_posts` with the
processed list; the per-iteration `tokens_used` mutations sum up. -/
def generation_phase (model : Nat → Option String) (st : AgentState) :
    Except PyErr AgentState :=
  match genPosts model st st.post_count.toNat with
  | .error e => .error e
  | .ok rs =>
    .ok { st with generated_posts := rs.map Prod.fst
                  tokens_used := st.tokens_used + (rs.map Prod.snd).sum }

/-! ### API boundary -/

/-- `PostRequest` pydantic model with its defaults.  `post_count` is an
unvalidated `int` (may be zero or negative). -/
structure PostRequest where
  topic : String
  tone : String := "professional"
  audience : String := "general"
  length : String := "medium"
  include_hashtags : Bool := true
  include_cta : Bool := true
  post_count : Int := 3
  language : String := "english"

/-- `GenerationResponse` pydantic model.  `generation_time` and
`cost_estimate` are kept as exact rationals; the display rounding
(`round(·, 2)` / `round(·, 4)`) applied by the endpoint is not modelled —
no claim depends on it. -/
structure GenerationResponse where
  posts : List Post
  generation_time : ℚ
  tokens_used : Int
  cost_estimate : ℚ
  search_results_used : Bool
  citations : List Citation

/-- The initial `AgentState` built by both endpoints:
`post_count=min(request.post_count, 5)`, everything else copied or
zero-initialised. -/
def initialState (req : PostRequest) : AgentState :=
  { topic := req.topic
    tone := req.tone
    audience := req.audience
    length := req.length
    include_hashtags := req.include_hashtags
    include_cta := req.include_cta
    post_count := min req.post_count 5
    language := req.language
    research_data := none
    post_strategy := none
    generated_posts := []
    tokens_used := 0
    citations := [] }

/-- Mapping of the final state to the response payload (identical in
`main.py` and `new_main.py`): posts and citations are copied field by
field, `tokens_used` goes through `int(...)`, `search_results_used` is
`bool(final_state.get("research_data"))`. -/
def buildResponse (elapsed : ℚ) (st : AgentState) : GenerationResponse :=
  { posts := st.generated_posts
    generation_time := elapsed
    tokens_used := pyInt st.tokens_used
    cost_estimate := st.tokens_used * (2 / 100000)
    search_results_used := researchTruthy st.research_data
    citations := st.citations }

/-- The credential check of `new_main.py`:
`not os.getenv("OPENAI_API_KEY") or os.getenv(...) == "your-openai-api-key-here"`
rejects an unset key (`none`), an empty value and the placeholder value. -/
def NewMain.keyOk (apiKey : Option String) : Bool :=
  !(apiKey.getD "" == "" || apiKey.getD "" == "your-openai-api-key-here")

/-- Body of the `try` block of `new_main.py`'s `POST /generate-posts`
handler: credential check (the `raise HTTPException` is an exception inside
the `try`), initial-state construction, the research → strategy →
generation pipeline, and the mapping to the response payload. -/
def NewMain.tryBody (apiKey : Option String) (toolRaises : Bool)
    (web : Except String (List SearchItem)) (strategyModel : Except String String)
    (genModel : Nat → Option String) (elapsed : ℚ) (req : PostRequest) :
    Except PyErr GenerationResponse :=
  if NewMain.keyOk apiKey then
    match strategy_phase strategyModel
        (NewMain.research_phase toolRaises web (initialState req)) with
    | .error e => .error e
    | .ok st2 =>
      match generation_phase genModel st2 with
      | .error e => .error e
      | .ok st3 => .ok (buildResponse elapsed st3)
  else
    .error (.httpException 500
      "OpenAI API key not configured. Please set OPENAI_API_KEY environment variable.")

/-- `new_main.py`'s `POST /generate-posts` handler.  Every exception raised
inside the `try` — including the credential-check `raise HTTPException` —
is caught by the trailing `except Exception`, which re-raises
`HTTPException(500, "Generation failed: " + str(e))`; an error result is
that `(status_code, detail)` pair. -/
def NewMain.generate_posts (apiKey : Option String) (toolRaises : Bool)
    (web : Except String (List SearchItem)) (strategyModel : Except String String)
    (genModel : Nat → Option String) (elapsed : ℚ) (req : PostRequest) :
    Except (Nat × String) GenerationResponse :=
  match NewMain.tryBody apiKey toolRaises web strategyModel genModel elapsed req with
  | .ok r => .ok r
  | .error e => .error (500, "Generation failed: " ++ pyErrStr e)

/-- Body of the `try` block of `main.py`'s `POST /generate-posts` handler:
same shape as the `new_main.py` one but with no credential check, running
the `agent.py` pipeline (whose research phase stores the tool's dict). -/
def MainMod.tryBody (toolRaises : Bool)
    (web : Except String (List SearchItem)) (strategyModel : Except String String)
    (genModel : Nat → Option String) (elapsed : ℚ) (req : PostRequest) :
    Except PyErr GenerationResponse :=
  match strategy_phase strategyModel
      (AgentMod.research_phase toolRaises web (initialState req)) with
  | .error e => .error e
  | .ok st2 =>
    match generation_phase genModel st2 with
    | .error e => .error e
    | .ok st3 => .ok (buildResponse elapsed st3)

/-- `main.py`'s `POST /generate-posts` handler. -/
def MainMod.generate_posts (toolRaises : Bool)
    (web : Except String (List SearchItem)) (strategyModel : Except String String)
    (genModel : Nat → Option String) (elapsed : ℚ) (req : PostRequest) :
    Except (Nat × String) GenerationResponse :=
  match MainMod.tryBody toolRaises web strategyModel genModel elapsed req with
  | .ok r => .ok r
  | .error e => .error (500, "Generation failed: " ++ pyErrStr e)

/-! ### Helper predicates and basic lemmas -/

/-- The per-post prompt can be built without raising iff `research_data`
does not hold a dict (the `agent.py` variant stores one there). -/
def researchSafe : Option ResearchVal → Bool
  | some (.dict _) => false
  | _ => true

theorem pyLen_append (a b : String) : pyLen (a ++ b) = pyLen a + pyLen b := by
  simp [pyLen, String.data_append]

theorem append_ne_empty_left (a b : String) (ha : pyLen a ≠ 0) : a ++ b ≠ "" := by
  intro h
  have hl : pyLen (a ++ b) = pyLen "" := by rw [h]
  rw [pyLen_append] at hl
  have h0 : pyLen "" = 0 := rfl
  omega

theorem researchSnippet_ok_of_safe (r : Option ResearchVal)
    (h : researchSafe r = true) : ∃ s, researchSnippet r = .ok s := by
  match r with
  | none => exact ⟨_, rfl⟩
  | some (.str s) => exact ⟨_, rfl⟩
  | some (.dict d) => simp [researchSafe] at h

theorem genIter_ok_of_checks (st : AgentState) (m : Option String) (i : Nat)
    (hl : lengthGuideHas st.length = true)
    (hr : researchSafe st.research_data = true) :
    ∃ pr, genIter st m i = .ok pr := by
  obtain ⟨s, hs⟩ := researchSnippet_ok_of_safe st.research_data hr
  unfold genIter
  rw [if_pos hl, hs]
  cases m with
  | some c => exact ⟨_, rfl⟩
  | none => exact ⟨_, rfl⟩

theorem genIter_snd_nonneg (st : AgentState) (m : Option String) (i : Nat)
    (pr : Post × ℚ) (h : genIter st m i = .ok pr) : 0 ≤ pr.2 := by
  unfold genIter at h
  by_cases hl : lengthGuideHas st.length = true
  · rw [if_pos hl] at h
    cases hs : researchSnippet st.research_data with
    | error e => rw [hs] at h; cases h
    | ok s =>
      rw [hs] at h
      cases m with
      | some c =>
        simp only [Except.ok.injEq] at h
        subst h
        positivity
      | none =>
        simp only [Except.ok.injEq] at h
        subst h
        norm_num
  · rw [if_neg hl] at h; cases h

/-- Success/length/indexing characterisation of the generation loop. -/
theorem genPosts_ok_spec (model : Nat → Option String) (st : AgentState) :
    ∀ n rs, genPosts model st n = .ok rs →
      rs.length = n ∧
      ∀ i, i < n → ∃ pr, genIter st (model i) i = .ok pr ∧ rs[i]? = some pr := by
  intro n
  induction n with
  | zero =>
    intro rs h
    simp [genPosts] at h
    subst h
    exact ⟨rfl, fun i hi => absurd hi (Nat.not_lt_zero i)⟩
  | succ n ih =>
    intro rs h
    unfold genPosts at h
    cases hrec : genPosts model st n with
    | error e => rw [hrec] at h; cases h
    | ok rs0 =>
      rw [hrec] at h
      cases hit : genIter st (model n) n with
      | error e => rw [hit] at h; cases h
      | ok pr =>
        rw [hit] at h
        simp only [Except.ok.injEq] at h
        subst h
        obtain ⟨hlen, hget⟩ := ih rs0 hrec
        refine ⟨by simp [hlen], ?_⟩
        intro i hi
        rcases Nat.lt_succ_iff_lt_or_eq.mp hi with hlt | heq
        · obtain ⟨pr0, hpr0, hidx⟩ := hget i hlt
          refine ⟨pr0, hpr0, ?_⟩
          rw [List.getElem?_append, if_pos (show i < rs0.length by omega)]
          exact hidx
        · subst heq
          refine ⟨pr, hit, ?_⟩
          rw [List.getElem?_append, if_neg (by omega)]
          have h0 : i - rs0.length = 0 := by omega
          rw [h0]
          rfl

/-- When both per-iteration checks pass, the loop always completes. -/
theorem genPosts_total (model : Nat → Option String) (st : AgentState)
    (hl : lengthGuideHas st.length = true)
    (hr : researchSafe st.research_data = true) :
    ∀ n, ∃ rs, genPosts model st n = .ok rs := by
  intro n
  induction n with
  | zero => exact ⟨[], rfl⟩
  | succ n ih =>
    obtain ⟨rs, hrs⟩ := ih
    obtain ⟨pr, hpr⟩ := genIter_ok_of_checks st (model n) n hl hr
    exact ⟨rs ++ [pr], by simp [genPosts, hrs, hpr]⟩

/-- With an unknown `length` key, every iteration raises `KeyError`, so a
loop with at least one iteration raises it. -/
theorem genPosts_keyError (model : Nat → Option String) (st : AgentState)
    (hl : lengthGuideHas st.length = false) :
    ∀ n, 1 ≤ n → genPosts model st n = .error (.keyError st.length) := by
  intro n
  induction n with
  | zero => intro h; omega
  | succ n ih =>
    intro _
    unfold genPosts
    cases n with
    | zero => simp [genPosts, genIter, hl]
    | succ m => rw [ih (by omega)]

theorem generation_phase_ok_spec (model : Nat → Option String) (st st' : AgentState)
    (h : generation_phase model st = .ok st') :
    ∃ rs, genPosts model st st.post_count.toNat = .ok rs ∧
      st' = { st with generated_posts := rs.map Prod.fst
                      tokens_used := st.tokens_used + (rs.map Prod.snd).sum } := by
  unfold generation_phase at h
  cases hrec : genPosts model st st.post_count.toNat with
  | error e => rw [hrec] at h; cases h
  | ok rs =>
    rw [hrec] at h
    simp only [Except.ok.injEq] at h
    exact ⟨rs, rfl, h.symm⟩

theorem generation_phase_total (model : Nat → Option String) (st : AgentState)
    (hl : lengthGuideHas st.length = true)
    (hr : researchSafe st.research_data = true) :
    ∃ st', generation_phase model st = .ok st' ∧
      st'.generated_posts.length = st.post_count.toNat := by
  obtain ⟨rs, hrs⟩ := genPosts_total model st hl hr st.post_count.toNat
  obtain ⟨hlen, -⟩ := genPosts_ok_spec model st _ rs hrs
  refine ⟨{ st with generated_posts := rs.map Prod.fst
                    tokens_used := st.tokens_used + (rs.map Prod.snd).sum }, ?_, ?_⟩
  · simp [generation_phase, hrs]
  · simp [hlen]

theorem generation_phase_frame (model : Nat → Option String) (st st' : AgentState)
    (h : generation_phase model st = .ok st') :
    st'.topic = st.topic ∧ st'.tone = st.tone ∧ st'.length = st.length ∧
    st'.include_hashtags = st.include_hashtags ∧ st'.include_cta = st.include_cta ∧
    st'.post_count = st.post_count ∧ st'.research_data = st.research_data ∧
    st'.citations = st.citations := by
  obtain ⟨rs, -, h2⟩ := generation_phase_ok_spec model st st' h
  subst h2
  exact ⟨rfl, rfl, rfl, rfl, rfl, rfl, rfl, rfl⟩

theorem strategy_phase_ok_eq (c : String) (st : AgentState) :
    strategy_phase (.ok c) st =
      .ok { st with post_strategy := some c
                    tokens_used := st.tokens_used + (pyWordCount c : ℚ) * (13 / 10) } := rfl

theorem strategy_phase_ok_inv (model : Except String String) (st st' : AgentState)
    (h : strategy_phase model st = .ok st') :
    ∃ c, model = .ok c ∧
      st' = { st with post_strategy := some c
                      tokens_used := st.tokens_used + (pyWordCount c : ℚ) * (13 / 10) } := by
  cases model with
  | error e => cases h
  | ok c =>
    refine ⟨c, rfl, ?_⟩
    rw [strategy_phase_ok_eq] at h
    exact (Except.ok.injEq _ _).mp h |>.symm

theorem truthy_str_of_ne (s : String) (h : s ≠ "") :
    (ResearchVal.str s).truthy = true := by
  simp [ResearchVal.truthy, h]

theorem placeholder_ne_empty (t : String) : "General insights about " ++ t ≠ "" :=
  append_ne_empty_left _ _ (by decide)

theorem agent_research_truthy (tr : Bool) (web : Except String (List SearchItem))
    (st : AgentState) :
    researchTruthy (AgentMod.research_phase tr web st).research_data = true := by
  unfold AgentMod.research_phase
  cases tr with
  | true =>
    rw [if_pos rfl]
    exact truthy_str_of_ne _ (placeholder_ne_empty st.topic)
  | false => rfl

theorem newmain_research_is_str (tr : Bool) (web : Except String (List SearchItem))
    (st : AgentState) :
    ∃ s, (NewMain.research_phase tr web st).research_data = some (.str s) := by
  unfold NewMain.research_phase
  cases tr with
  | true => exact ⟨_, rfl⟩
  | false => exact ⟨_, rfl⟩

theorem newmain_research_degraded (e : String) (st : AgentState) :
    NewMain.research_phase false (.error e) st =
      { st with research_data := some (.str ("Search unavailable for " ++ st.topic ++ ": " ++ e))
                citations := [] } := rfl

/-! ### C5 — Hashtag Lookup -/

theorem lookupTags_eq_find (table : List (String × List String)) (topic : String) :
    lookupTags table topic =
      ((table.find? (fun kt => pyIn (pyLower kt.1) (pyLower topic))).getD
        ("", defaultTags)).2 := by
  induction table with
  | nil => rfl
  | cons kt rest ih =>
    obtain ⟨key, tags⟩ := kt
    by_cases h : pyIn (pyLower key) (pyLower topic) = true
    · simp [lookupTags, List.find?, h]
    · simp only [Bool.not_eq_true] at h
      simp [lookupTags, List.find?, h, ih]

theorem lookupTags_length (table : List (String × List String)) (topic : String)
    (h : ∀ kt ∈ table, (kt.2 : List String).length = 5) :
    (lookupTags table topic).length = 5 := by
  induction table with
  | nil => rfl
  | cons kt rest ih =>
    obtain ⟨key, tags⟩ := kt
    unfold lookupTags
    split
    · exact h (key, tags) (by simp)
    · exact ih fun kt hkt => h kt (by simp [hkt])

/-- C5: `analyze_hashtag_performance` is a total, deterministic function of
the topic: it always returns a 5-element list; when some key of the fixed
ordered table matches the topic case-insensitively as a substring, it
returns the tag list of the first matching key in table order; when no key
matches, it returns the fixed 5-element default list. -/
theorem hashtag_lookup_spec (topic : String) :
    (analyze_hashtag_performance topic).length = 5 ∧
    (∀ key tags,
      hashtag_map.find? (fun kt => pyIn (pyLower kt.1) (pyLower topic)) = some (key, tags) →
      analyze_hashtag_performance topic = tags) ∧
    (hashtag_map.find? (fun kt => pyIn (pyLower kt.1) (pyLower topic)) = none →
      analyze_hashtag_performance topic = defaultTags) := by
  refine ⟨lookupTags_length hashtag_map topic (by decide), ?_, ?_⟩
  · intro key tags hfind
    rw [analyze_hashtag_performance, lookupTags_eq_find, hfind]
    rfl
  · intro hfind
    rw [analyze_hashtag_performance, lookupTags_eq_find, hfind]
    rfl

/-- Witness for C5: "Startup AI tips" matches both "startup" and "ai"; the
first key in table order ("startup") wins.  "cooking recipes" matches no
key and yields the default list. -/
theorem hashtag_lookup_spec_witness :
    (analyze_hashtag_performance "Startup AI tips").length = 5 ∧
    analyze_hashtag_performance "Startup AI tips" =
      ["#StartupLife", "#Entrepreneurship", "#Innovation", "#TechStartup", "#ScaleUp"] ∧
    analyze_hashtag_performance "cooking recipes" = defaultTags :=
  ⟨(hashtag_lookup_spec "Startup AI tips").1,
   (hashtag_lookup_spec "Startup AI tips").2.1 "startup"
     ["#StartupLife", "#Entrepreneurship", "#Innovation", "#TechStartup", "#ScaleUp"]
     (by decide),
   (hashtag_lookup_spec "cooking recipes").2.2 (by decide)⟩

/-! ### C4 — engagement heuristic of the generation loop -/

theorem researchSafe_of_snippet_ok (r : Option ResearchVal) (s : String)
    (h : researchSnippet r = .ok s) : researchSafe r = true := by
  match r with
  | none => rfl
  | some (.str _) => rfl
  | some (.dict _) => cases h

theorem genIter_ok_checks (st : AgentState) (m : Option String) (i : Nat)
    (pr : Post × ℚ) (h : genIter st m i = .ok pr) :
    lengthGuideHas st.length = true ∧ researchSafe st.research_data = true := by
  unfold genIter at h
  by_cases hl : lengthGuideHas st.length = true
  · refine ⟨hl, ?_⟩
    rw [if_pos hl] at h
    cases hs : researchSnippet st.research_data with
    | error e => rw [hs] at h; cases h
    | ok s => exact researchSafe_of_snippet_ok _ _ hs
  · rw [if_neg hl] at h; cases h

theorem genIter_some_eq (st : AgentState) (c : String) (i : Nat)
    (hl : lengthGuideHas st.length = true)
    (hr : researchSafe st.research_data = true) :
    genIter st (some c) i =
      .ok ({ content := pyStrip c
             hashtags := if st.include_hashtags then analyze_hashtag_performance st.topic else []
             cta := ctaFor st.include_cta (approachOf i)
             estimated_engagement := engagementFor (approachOf i) (pyStrip c)
             tone_used := pyTitle st.tone },
           (pyWordCount c : ℚ) * (13 / 10)) := by
  obtain ⟨s, hs⟩ := researchSnippet_ok_of_safe st.research_data hr
  unfold genIter
  rw [if_pos hl, hs]

theorem genIter_none_eq (st : AgentState) (i : Nat)
    (hl : lengthGuideHas st.length = true)
    (hr : researchSafe st.research_data = true) :
    genIter st none i = .ok (fallbackPost st, 200) := by
  obtain ⟨s, hs⟩ := researchSnippet_ok_of_safe st.research_data hr
  unfold genIter
  rw [if_pos hl, hs]

/-- C4: for every post generated from a successful model call, the
engagement label is "high" if the approach name contains "question" or the
stripped content is longer than 200 characters; otherwise "low" if the
content is shorter than 100 characters; otherwise "medium" — the
question/long-content check takes precedence over the short-content
check. -/
theorem engagement_label_spec (st st' : AgentState) (model : Nat → Option String)
    (i : Nat) (c : String)
    (hok : generation_phase model st = .ok st')
    (hi : i < st.post_count.toNat)
    (hc : model i = some c) :
    (st'.generated_posts[i]?).map Post.estimated_engagement =
      some (if pyIn "question" (pyLower (approachOf i)) = true ∨ pyLen (pyStrip c) > 200
            then "high"
            else if pyLen (pyStrip c) < 100 then "low"
            else "medium") := by
  obtain ⟨rs, hrs, hst⟩ := generation_phase_ok_spec model st st' hok
  obtain ⟨hlen, hget⟩ := genPosts_ok_spec model st _ rs hrs
  obtain ⟨pr, hpr, hidx⟩ := hget i hi
  rw [hc] at hpr
  obtain ⟨hl, hr⟩ := genIter_ok_checks st (some c) i pr hpr
  rw [genIter_some_eq st c i hl hr] at hpr
  have hpr1 : pr = ({ content := pyStrip c
                      hashtags := if st.include_hashtags then analyze_hashtag_performance st.topic else []
                      cta := ctaFor st.include_cta (approachOf i)
                      estimated_engagement := engagementFor (approachOf i) (pyStrip c)
                      tone_used := pyTitle st.tone },
                    (pyWordCount c : ℚ) * (13 / 10)) := by
    exact ((Except.ok.injEq _ _).mp hpr).symm
  subst hst
  show ((rs.map Prod.fst)[i]?).map Post.estimated_engagement = _
  rw [List.getElem?_map, hidx, hpr1]
  simp [engagementFor]

/-- Witness for C4: a 6-character model output under the Question/Engagement
approach (iteration 2): the short-content condition holds but the
question-approach check wins, so the label is "high". -/
def stW4 : AgentState :=
  { topic := "ai", tone := "professional", audience := "general", length := "medium",
    include_hashtags := true, include_cta := true, post_count := 3,
    language := "english", research_data := none, post_strategy := none,
    generated_posts := [], tokens_used := 0, citations := [] }

def genW4 : Nat → Option String := fun j => if j == 2 then some "Short?" else none

theorem engagement_label_spec_witness :
    ∃ st', generation_phase genW4 stW4 = .ok st' ∧
      (st'.generated_posts[2]?).map Post.estimated_engagement = some "high" := by
  cases h : generation_phase genW4 stW4 with
  | ok st' =>
    refine ⟨st', rfl, ?_⟩
    have he := engagement_label_spec stW4 st' genW4 2 "Short?" h (by decide) rfl
    have hif : (if pyIn "question" (pyLower (approachOf 2)) = true ∨ pyLen (pyStrip "Short?") > 200
                then "high"
                else if pyLen (pyStrip "Short?") < 100 then "low"
                else "medium") = "high" := if_pos (Or.inl (by decide))
    rw [he, hif]
  | error e =>
    obtain ⟨st2, hok2, -⟩ := generation_phase_total genW4 stW4 (by decide) (by decide)
    rw [h] at hok2
    cases hok2

/-! ### Endpoint inversion and frame lemmas -/

theorem newmain_generate_posts_ok_inv (apiKey : Option String) (toolRaises : Bool)
    (web : Except String (List SearchItem)) (strategyModel : Except String String)
    (genModel : Nat → Option String) (elapsed : ℚ) (req : PostRequest)
    (resp : GenerationResponse)
    (h : NewMain.generate_posts apiKey toolRaises web strategyModel genModel elapsed req
          = .ok resp) :
    NewMain.keyOk apiKey = true ∧
    ∃ st2 st3,
      strategy_phase strategyModel
        (NewMain.research_phase toolRaises web (initialState req)) = .ok st2 ∧
      generation_phase genModel st2 = .ok st3 ∧
      resp = buildResponse elapsed st3 := by
  unfold NewMain.generate_posts at h
  cases hb : NewMain.tryBody apiKey toolRaises web strategyModel genModel elapsed req with
  | error e => rw [hb] at h; cases h
  | ok r =>
    rw [hb] at h
    simp only [Except.ok.injEq] at h
    subst h
    unfold NewMain.tryBody at hb
    by_cases hk : NewMain.keyOk apiKey = true
    · rw [if_pos hk] at hb
      refine ⟨hk, ?_⟩
      cases h2 : strategy_phase strategyModel
          (NewMain.research_phase toolRaises web (initialState req)) with
      | error e => rw [h2] at hb; cases hb
      | ok st2 =>
        rw [h2] at hb
        have hb2 : (match generation_phase genModel st2 with
            | .error e => .error e
            | .ok st3 => .ok (buildResponse elapsed st3) : Except PyErr GenerationResponse)
            = .ok r := hb
        cases h3 : generation_phase genModel st2 with
        | error e => rw [h3] at hb2; cases hb2
        | ok st3 =>
          rw [h3] at hb2
          simp only [Except.ok.injEq] at hb2
          exact ⟨st2, st3, rfl, h3, hb2.symm⟩
    · rw [if_neg hk] at hb; cases hb

theorem mainmod_generate_posts_ok_inv (toolRaises : Bool)
    (web : Except String (List SearchItem)) (strategyModel : Except String String)
    (genModel : Nat → Option String) (elapsed : ℚ) (req : PostRequest)
    (resp : GenerationResponse)
    (h : MainMod.generate_posts toolRaises web strategyModel genModel elapsed req
          = .ok resp) :
    ∃ st2 st3,
      strategy_phase strategyModel
        (AgentMod.research_phase toolRaises web (initialState req)) = .ok st2 ∧
      generation_phase genModel st2 = .ok st3 ∧
      resp = buildResponse elapsed st3 := by
  unfold MainMod.generate_posts at h
  cases hb : MainMod.tryBody toolRaises web strategyModel genModel elapsed req with
  | error e => rw [hb] at h; cases h
  | ok r =>
    rw [hb] at h
    simp only [Except.ok.injEq] at h
    subst h
    unfold MainMod.tryBody at hb
    cases h2 : strategy_phase strategyModel
        (AgentMod.research_phase toolRaises web (initialState req)) with
    | error e => rw [h2] at hb; cases hb
    | ok st2 =>
      rw [h2] at hb
      have hb2 : (match generation_phase genModel st2 with
          | .error e => .error e
          | .ok st3 => .ok (buildResponse elapsed st3) : Except PyErr GenerationResponse)
          = .ok r := hb
      cases h3 : generation_phase genModel st2 with
      | error e => rw [h3] at hb2; cases hb2
      | ok st3 =>
        rw [h3] at hb2
        simp only [Except.ok.injEq] at hb2
        exact ⟨st2, st3, rfl, h3, hb2.symm⟩

theorem newmain_research_frame (tr : Bool) (web : Except String (List SearchItem))
    (st : AgentState) :
    (NewMain.research_phase tr web st).topic = st.topic ∧
    (NewMain.research_phase tr web st).tone = st.tone ∧
    (NewMain.research_phase tr web st).length = st.length ∧
    (NewMain.research_phase tr web st).include_hashtags = st.include_hashtags ∧
    (NewMain.research_phase tr web st).include_cta = st.include_cta ∧
    (NewMain.research_phase tr web st).post_count = st.post_count ∧
    (NewMain.research_phase tr web st).tokens_used = st.tokens_used := by
  cases tr <;> exact ⟨rfl, rfl, rfl, rfl, rfl, rfl, rfl⟩

theorem agentmod_research_frame (tr : Bool) (web : Except String (List SearchItem))
    (st : AgentState) :
    (AgentMod.research_phase tr web st).topic = st.topic ∧
    (AgentMod.research_phase tr web st).tone = st.tone ∧
    (AgentMod.research_phase tr web st).length = st.length ∧
    (AgentMod.research_phase tr web st).include_hashtags = st.include_hashtags ∧
    (AgentMod.research_phase tr web st).include_cta = st.include_cta ∧
    (AgentMod.research_phase tr web st).post_count = st.post_count ∧
    (AgentMod.research_phase tr web st).tokens_used = st.tokens_used ∧
    (AgentMod.research_phase tr web st).citations = st.citations := by
  cases tr <;> exact ⟨rfl, rfl, rfl, rfl, rfl, rfl, rfl, rfl⟩

/-! ### C3 — the fallback post -/

theorem startsWithCL_append (l r : List Char) : startsWithCL l (l ++ r) = true := by
  induction l with
  | nil => rfl
  | cons c cs ih => simp [startsWithCL, ih]

theorem containsCL_of_startsWith (needle hay : List Char)
    (h : startsWithCL needle hay = true) : containsCL needle hay = true := by
  cases hay with
  | nil => simpa [containsCL] using h
  | cons c rest => simp [containsCL, h]

theorem containsCL_sandwich (pre needle post : List Char) :
    containsCL needle (pre ++ needle ++ post) = true := by
  induction pre with
  | nil =>
    simp only [List.nil_append]
    exact containsCL_of_startsWith _ _ (startsWithCL_append needle post)
  | cons c cs ih =>
    simp only [List.cons_append]
    simp only [containsCL, Bool.or_eq_true]
    exact Or.inr ih

theorem pyIn_mentions (pre t post : String) : pyIn t (pre ++ t ++ post) = true := by
  unfold pyIn
  rw [String.data_append, String.data_append]
  exact containsCL_sandwich pre.data t.data post.data

/-- C3: in every generation-loop iteration whose model call raises, the loop
continues and appends the fixed fallback post: templated content that
mentions the topic, hashtags computed by Hashtag Lookup iff
`include_hashtags`, the generic fallback CTA iff `include_cta`, engagement
fixed to "medium", title-cased tone — and that iteration adds exactly the
constant 200 to `tokens_used`. -/
theorem fallback_post_spec (st st' : AgentState) (model : Nat → Option String)
    (i : Nat)
    (hok : generation_phase model st = .ok st')
    (hi : i < st.post_count.toNat)
    (hf : model i = none) :
    st'.generated_posts[i]? = some
      { content := fallbackContent st.topic
        hashtags := if st.include_hashtags then analyze_hashtag_performance st.topic else []
        cta := if st.include_cta then fallbackCta else ""
        estimated_engagement := "medium"
        tone_used := pyTitle st.tone } ∧
    pyIn st.topic (fallbackContent st.topic) = true ∧
    genIter st (model i) i = .ok (fallbackPost st, 200) := by
  obtain ⟨rs, hrs, hst⟩ := generation_phase_ok_spec model st st' hok
  obtain ⟨hlen, hget⟩ := genPosts_ok_spec model st _ rs hrs
  obtain ⟨pr, hpr, hidx⟩ := hget i hi
  rw [hf] at hpr
  obtain ⟨hl, hr⟩ := genIter_ok_checks st none i pr hpr
  rw [genIter_none_eq st i hl hr] at hpr
  have hpr1 : pr = (fallbackPost st, 200) := ((Except.ok.injEq _ _).mp hpr).symm
  subst hst
  refine ⟨?_, pyIn_mentions "🚀 Exploring " st.topic _, by rw [hf, genIter_none_eq st i hl hr]⟩
  show ((rs.map Prod.fst)[i]?) = _
  rw [List.getElem?_map, hidx, hpr1]
  rfl

/-- Witness state for C3: one post requested, every model call fails. -/
def stW3 : AgentState :=
  { topic := "ai", tone := "professional", audience := "general", length := "medium",
    include_hashtags := true, include_cta := true, post_count := 1,
    language := "english", research_data := none, post_strategy := none,
    generated_posts := [], tokens_used := 0, citations := [] }

theorem fallback_post_spec_witness :
    ∃ st', generation_phase (fun _ => none) stW3 = .ok st' ∧
      st'.generated_posts[0]? = some
        { content := fallbackContent stW3.topic
          hashtags := if stW3.include_hashtags then analyze_hashtag_performance stW3.topic else []
          cta := if stW3.include_cta then fallbackCta else ""
          estimated_engagement := "medium"
          tone_used := pyTitle stW3.tone } ∧
      genIter stW3 none 0 = .ok (fallbackPost stW3, 200) := by
  cases h : generation_phase (fun _ => none) stW3 with
  | ok st' =>
    have h3 := fallback_post_spec stW3 st' (fun _ => none) 0 h (by decide) rfl
    exact ⟨st', rfl, h3.1, h3.2.2⟩
  | error e =>
    obtain ⟨st2, hok2, -⟩ := generation_phase_total (fun _ => none) stW3 (by decide) (by decide)
    rw [h] at hok2
    cases hok2

/-! ### C1 — response post count -/

/-- Request with a negative `post_count` (pydantic accepts any int). -/
def reqC1 : PostRequest := { topic := "ai", post_count := -1 }

/-- C1 counterexample: for `post_count = -1` the request succeeds (the
clamped count `min(-1, 5) = -1` makes `range` empty) and the response
carries 0 posts, but `min(requested, 5) = -1 ≠ 0` — so the posts-list
length does not equal `min(requested post_count, 5)` for every request. -/
theorem posts_length_counterexample :
    (NewMain.generate_posts (some "sk-test") false (.error "offline") (.ok "strategy")
        (fun _ => none) 0 reqC1).map (fun r => (r.posts.length : Int)) = .ok 0 ∧
    min reqC1.post_count 5 ≠ (0 : Int) := by
  constructor
  · rfl
  · decide

/-- C1 (amended): for every request with non-negative `post_count`, a
successful response carries exactly `min(post_count, 5)` posts — under any
oracles, in particular when every individual model call fails. -/
theorem posts_length_spec (apiKey : Option String) (toolRaises : Bool)
    (web : Except String (List SearchItem)) (strategyModel : Except String String)
    (genModel : Nat → Option String) (elapsed : ℚ) (req : PostRequest)
    (resp : GenerationResponse)
    (hok : NewMain.generate_posts apiKey toolRaises web strategyModel genModel elapsed req
            = .ok resp)
    (hpc : 0 ≤ req.post_count) :
    (resp.posts.length : Int) = min req.post_count 5 := by
  obtain ⟨-, st2, st3, h2, h3, hresp⟩ :=
    newmain_generate_posts_ok_inv apiKey toolRaises web strategyModel genModel elapsed req
      resp hok
  obtain ⟨c, -, hst2⟩ := strategy_phase_ok_inv strategyModel _ st2 h2
  obtain ⟨rs, hrs, hst3⟩ := generation_phase_ok_spec genModel st2 st3 h3
  obtain ⟨hlen, -⟩ := genPosts_ok_spec genModel st2 _ rs hrs
  have hpcount : st2.post_count = min req.post_count 5 := by
    rw [hst2]
    exact (newmain_research_frame toolRaises web (initialState req)).2.2.2.2.2.1
  have hposts : resp.posts = rs.map Prod.fst := by rw [hresp, hst3]; rfl
  rw [hposts]
  have : (rs.map Prod.fst).length = st2.post_count.toNat := by simp [hlen]
  rw [this, hpcount]
  exact Int.toNat_of_nonneg (le_min hpc (by norm_num))

/-- Witness request for C1: `post_count = 3`. -/
def reqW1 : PostRequest := { topic := "ai", post_count := 3 }

/-- Witness for C1: a successful run in which every model call fails still
returns `min(3, 5) = 3` posts. -/
theorem posts_length_spec_witness :
    ∃ resp, NewMain.generate_posts (some "sk-test") false (.error "offline") (.ok "strategy")
        (fun _ => none) 0 reqW1 = .ok resp ∧
      (resp.posts.length : Int) = min reqW1.post_count 5 := by
  cases h : NewMain.generate_posts (some "sk-test") false (.error "offline") (.ok "strategy")
      (fun _ => none) 0 reqW1 with
  | ok resp =>
    exact ⟨resp, rfl,
      posts_length_spec (some "sk-test") false (.error "offline") (.ok "strategy")
        (fun _ => none) 0 reqW1 resp h (by decide)⟩
  | error e =>
    have hok : (NewMain.generate_posts (some "sk-test") false (.error "offline")
        (.ok "strategy") (fun _ => none) 0 reqW1).isOk = true := rfl
    rw [h] at hok
    cases hok

/-! ### C6 — unknown `length` key -/

theorem generation_phase_keyError (st : AgentState) (genModel : Nat → Option String)
    (hlen : lengthGuideHas st.length = false) (hpc : 1 ≤ st.post_count) :
    generation_phase genModel st = .error (.keyError st.length) := by
  unfold generation_phase
  rw [genPosts_keyError genModel st hlen st.post_count.toNat (by omega)]

theorem genMatch_error (genModel : Nat → Option String) (elapsed : ℚ)
    (st2 : AgentState) (e : PyErr) (h : generation_phase genModel st2 = .error e) :
    (match generation_phase genModel st2 with
     | .error e => .error e
     | .ok st3 => .ok (buildResponse elapsed st3) : Except PyErr GenerationResponse)
      = .error e := by
  rw [h]

theorem genMatch_ok (genModel : Nat → Option String) (elapsed : ℚ)
    (st2 st3 : AgentState) (h : generation_phase genModel st2 = .ok st3) :
    (match generation_phase genModel st2 with
     | .error e => .error e
     | .ok st3 => .ok (buildResponse elapsed st3) : Except PyErr GenerationResponse)
      = .ok (buildResponse elapsed st3) := by
  rw [h]

/-- C6 (amended): for every request with an unknown `length` key that
actually reaches a generation iteration — at least one post requested and
the strategy model call succeeded — the generation stage raises `KeyError`
while building the first per-post prompt (no default is substituted) and
the whole request fails with the wrapped key-lookup error.  (A request with
`post_count ≤ 0` never builds a per-post prompt and succeeds instead.) -/
theorem invalid_length_spec :
    (∀ (st : AgentState) (genModel : Nat → Option String),
      lengthGuideHas st.length = false → 1 ≤ st.post_count →
      generation_phase genModel st = .error (.keyError st.length)) ∧
    (∀ (apiKey : Option String) (toolRaises : Bool)
      (web : Except String (List SearchItem)) (c : String)
      (genModel : Nat → Option String) (elapsed : ℚ) (req : PostRequest),
      NewMain.keyOk apiKey = true → lengthGuideHas req.length = false →
      1 ≤ req.post_count →
      NewMain.generate_posts apiKey toolRaises web (.ok c) genModel elapsed req =
        .error (500, "Generation failed: " ++ pyErrStr (.keyError req.length))) := by
  constructor
  · exact fun st genModel hlen hpc => generation_phase_keyError st genModel hlen hpc
  · intro apiKey toolRaises web c genModel elapsed req hkey hlen hpc
    set st1 := NewMain.research_phase toolRaises web (initialState req) with hst1def
    have hlen1 : st1.length = req.length :=
      (newmain_research_frame toolRaises web (initialState req)).2.2.1
    have hpc1 : st1.post_count = min req.post_count 5 :=
      (newmain_research_frame toolRaises web (initialState req)).2.2.2.2.2.1
    have hmidlen : ({ st1 with post_strategy := some c, tokens_used := st1.tokens_used + (pyWordCount c : ℚ) * (13 / 10) } : AgentState).length = req.length := hlen1
    have hmidpc : ({ st1 with post_strategy := some c, tokens_used := st1.tokens_used + (pyWordCount c : ℚ) * (13 / 10) } : AgentState).post_count = min req.post_count 5 := hpc1
    have hGen := generation_phase_keyError
      { st1 with post_strategy := some c, tokens_used := st1.tokens_used + (pyWordCount c : ℚ) * (13 / 10) }
      genModel (by rw [hmidlen]; exact hlen) (by rw [hmidpc]; omega)
    have hGen2 : generation_phase genModel
        { st1 with post_strategy := some c, tokens_used := st1.tokens_used + (pyWordCount c : ℚ) * (13 / 10) }
        = .error (.keyError req.length) := hGen.trans (by rw [hmidlen])
    have hbody : NewMain.tryBody apiKey toolRaises web (.ok c) genModel elapsed req
        = .error (.keyError req.length) := by
      unfold NewMain.tryBody
      rw [if_pos hkey, ← hst1def, strategy_phase_ok_eq]
      exact genMatch_error genModel elapsed _ _ hGen2
    unfold NewMain.generate_posts
    rw [hbody]

/-- Request with an unknown length and `post_count = 0`. -/
def reqC6 : PostRequest := { topic := "ai", length := "gigantic", post_count := 0 }

/-- C6 counterexample: with `length = "gigantic"` but `post_count = 0` the
generation loop never runs, no `KeyError` is raised, and the request
succeeds with an empty posts list — refuting the claim for every
request with an unsupported length. -/
theorem invalid_length_counterexample :
    (NewMain.generate_posts (some "sk-test") false (.error "offline") (.ok "strategy")
        (fun _ => none) 0 reqC6).map (fun r => r.posts.length) = .ok 0 ∧
    lengthGuideHas reqC6.length = false := by
  constructor
  · rfl
  · decide

/-- Witness for C6: with `length = "gigantic"` and `post_count = 2` the
request fails with the wrapped `KeyError`. -/
def reqW6 : PostRequest := { topic := "ai", length := "gigantic", post_count := 2 }

theorem invalid_length_spec_witness :
    NewMain.generate_posts (some "sk-test") false (.error "offline") (.ok "strategy")
        (fun _ => none) 0 reqW6 =
      .error (500, "Generation failed: " ++ pyErrStr (.keyError "gigantic")) ∧
    lengthGuideHas "gigantic" = false :=
  ⟨invalid_length_spec.2 (some "sk-test") false (.error "offline") "strategy"
      (fun _ => none) 0 reqW6 (by decide) (by decide) (by decide),
   by decide⟩

/-! ### C2 — graceful degradation of the research stage -/

theorem degraded_ne_empty (t e : String) :
    "Search unavailable for " ++ t ++ ": " ++ e ≠ "" := by
  apply append_ne_empty_left
  rw [pyLen_append, pyLen_append]
  have h23 : pyLen "Search unavailable for " = 23 := by decide
  omega

/-- C2: when the search capability raises (or its output is malformed enough
to raise during parsing), the search tool — in both variants — returns the
degraded research text naming the topic together with an empty citations
list instead of raising; the research phase stores that text; and the
overall request (valid length, strategy call succeeding, any per-post model
behaviour) still completes successfully with the full clamped post
count. -/
theorem search_failure_spec :
    (∀ (topic e : String),
      Tools.search_linkedin_trends topic (.error e) =
        { research_text := "Search unavailable for " ++ topic ++ ": " ++ e
          citations := [] } ∧
      NewMain.search_linkedin_trends topic (.error e) =
        { research_text := "Search unavailable for " ++ topic ++ ": " ++ e
          citations := [] }) ∧
    (∀ (e : String) (st : AgentState),
      (NewMain.research_phase false (.error e) st).research_data =
        some (.str ("Search unavailable for " ++ st.topic ++ ": " ++ e)) ∧
      (NewMain.research_phase false (.error e) st).citations = []) ∧
    (∀ (apiKey : Option String) (e c : String) (genModel : Nat → Option String)
      (elapsed : ℚ) (req : PostRequest),
      NewMain.keyOk apiKey = true → lengthGuideHas req.length = true →
      ∃ resp,
        NewMain.generate_posts apiKey false (.error e) (.ok c) genModel elapsed req
          = .ok resp ∧
        resp.posts.length = (min req.post_count 5).toNat ∧
        resp.citations = [] ∧
        resp.search_results_used = true) := by
  refine ⟨fun topic e => ⟨rfl, rfl⟩, fun e st => ⟨rfl, rfl⟩, ?_⟩
  intro apiKey e c genModel elapsed req hkey hlen
  obtain ⟨st3, h3, hlen3⟩ := generation_phase_total genModel
    { NewMain.research_phase false (.error e) (initialState req) with
        post_strategy := some c,
        tokens_used := (NewMain.research_phase false (.error e) (initialState req)).tokens_used
          + (pyWordCount c : ℚ) * (13 / 10) }
    hlen rfl
  have hframe := generation_phase_frame genModel _ st3 h3
  refine ⟨buildResponse elapsed st3, ?_, ?_, ?_, ?_⟩
  · unfold NewMain.generate_posts
    have hbody : NewMain.tryBody apiKey false (.error e) (.ok c) genModel elapsed req
        = .ok (buildResponse elapsed st3) := by
      unfold NewMain.tryBody
      rw [if_pos hkey, strategy_phase_ok_eq]
      exact genMatch_ok genModel elapsed _ st3 h3
    rw [hbody]
  · exact hlen3
  · exact hframe.2.2.2.2.2.2.2.trans rfl
  · show researchTruthy st3.research_data = true
    rw [hframe.2.2.2.2.2.2.1]
    exact truthy_str_of_ne _ (degraded_ne_empty req.topic e)

/-- Witness request for C2. -/
def reqW2 : PostRequest := { topic := "ai in healthcare", post_count := 3 }

theorem search_failure_spec_witness :
    ∃ resp, NewMain.generate_posts (some "sk-test") false (.error "HTTPError 503") (.ok "plan")
        (fun _ => some "some model output") 0 reqW2 = .ok resp ∧
      resp.posts.length = (min reqW2.post_count 5).toNat ∧
      resp.citations = [] ∧
      resp.search_results_used = true :=
  search_failure_spec.2.2 (some "sk-test") "HTTPError 503" "plan"
    (fun _ => some "some model output") 0 reqW2 (by decide) (by decide)

/-! ### C7 — tokens accounting -/

/-- C7 (amended): `tokens_used` never decreases: the research phases leave
it unchanged, the strategy phase adds word-count × 1.3, and a successful
generation phase adds the sum of the per-iteration increments, where a
fallback iteration adds exactly 200 and a successful iteration adds the
model output's word count × 1.3 (which is 0, not strictly positive, for a
whitespace-only output); the `tokens_used` reported by a successful
response is always ≥ 0. -/
theorem tokens_accounting_spec :
    (∀ (tr : Bool) (web : Except String (List SearchItem)) (st : AgentState),
      (NewMain.research_phase tr web st).tokens_used = st.tokens_used ∧
      (AgentMod.research_phase tr web st).tokens_used = st.tokens_used) ∧
    (∀ (c : String) (st st' : AgentState), strategy_phase (.ok c) st = .ok st' →
      st'.tokens_used = st.tokens_used + (pyWordCount c : ℚ) * (13 / 10) ∧
      st.tokens_used ≤ st'.tokens_used) ∧
    (∀ (genModel : Nat → Option String) (st st' : AgentState),
      generation_phase genModel st = .ok st' →
      st.tokens_used ≤ st'.tokens_used ∧
      ∃ rs, genPosts genModel st st.post_count.toNat = .ok rs ∧
        st'.tokens_used = st.tokens_used + (rs.map Prod.snd).sum ∧
        ∀ (i : Nat) (pr : Post × ℚ), rs[i]? = some pr →
          (genModel i = none → pr.2 = 200) ∧
          (∀ c, genModel i = some c → pr.2 = (pyWordCount c : ℚ) * (13 / 10))) ∧
    (∀ (apiKey : Option String) (tr : Bool) (web : Except String (List SearchItem))
      (strategyModel : Except String String) (genModel : Nat → Option String)
      (elapsed : ℚ) (req : PostRequest) (resp : GenerationResponse),
      NewMain.generate_posts apiKey tr web strategyModel genModel elapsed req = .ok resp →
      0 ≤ resp.tokens_used) := by
  have hgen : ∀ (genModel : Nat → Option String) (st st' : AgentState),
      generation_phase genModel st = .ok st' →
      st.tokens_used ≤ st'.tokens_used ∧
      ∃ rs, genPosts genModel st st.post_count.toNat = .ok rs ∧
        st'.tokens_used = st.tokens_used + (rs.map Prod.snd).sum ∧
        ∀ (i : Nat) (pr : Post × ℚ), rs[i]? = some pr →
          (genModel i = none → pr.2 = 200) ∧
          (∀ c, genModel i = some c → pr.2 = (pyWordCount c : ℚ) * (13 / 10)) := by
    intro genModel st st' hok
    obtain ⟨rs, hrs, hst⟩ := generation_phase_ok_spec genModel st st' hok
    obtain ⟨hlen, hget⟩ := genPosts_ok_spec genModel st _ rs hrs
    have hsum : 0 ≤ (rs.map Prod.snd).sum := by
      apply List.sum_nonneg
      intro x hx
      obtain ⟨pr, hmem, hx'⟩ := List.mem_map.mp hx
      obtain ⟨i, hi, hidx⟩ := List.mem_iff_getElem.mp hmem
      obtain ⟨pr', hpr', hidx'⟩ := hget i (by omega)
      have : pr = pr' := by
        have h1 : rs[i]? = some pr := by
          rw [List.getElem?_eq_getElem hi, hidx]
        rw [h1] at hidx'
        exact (Option.some.injEq _ _).mp hidx'.symm |>.symm
      subst this
      rw [← hx']
      exact genIter_snd_nonneg st (genModel i) i pr hpr'
    refine ⟨by rw [hst]; exact le_add_of_nonneg_right hsum, rs, hrs, by rw [hst], ?_⟩
    intro i pr hidx
    have hi : i < rs.length := by
      by_contra hcon
      rw [List.getElem?_eq_none (by omega)] at hidx
      cases hidx
    obtain ⟨pr', hpr', hidx'⟩ := hget i (by omega)
    have hpp : pr = pr' := by
      rw [hidx] at hidx'
      exact (Option.some.injEq _ _).mp hidx'.symm |>.symm
    subst hpp
    constructor
    · intro hnone
      rw [hnone] at hpr'
      obtain ⟨hl, hr⟩ := genIter_ok_checks st none i pr hpr'
      rw [genIter_none_eq st i hl hr] at hpr'
      rw [((Except.ok.injEq _ _).mp hpr').symm]
    · intro c hsome
      rw [hsome] at hpr'
      obtain ⟨hl, hr⟩ := genIter_ok_checks st (some c) i pr hpr'
      rw [genIter_some_eq st c i hl hr] at hpr'
      rw [((Except.ok.injEq _ _).mp hpr').symm]
  refine ⟨fun tr web st => ⟨(newmain_research_frame tr web st).2.2.2.2.2.2,
          (agentmod_research_frame tr web st).2.2.2.2.2.2.1⟩, ?_, hgen, ?_⟩
  · intro c st st' h
    obtain ⟨c', hc', hst⟩ := strategy_phase_ok_inv (.ok c) st st' h
    have hcc : c' = c := by
      cases hc'' : (Except.ok c : Except String String) with
      | ok x => exact ((Except.ok.injEq _ _).mp hc').symm
      | error e => cases hc''
    subst hcc
    rw [hst]
    refine ⟨rfl, le_add_of_nonneg_right (by positivity)⟩
  · intro apiKey tr web strategyModel genModel elapsed req resp hok
    obtain ⟨-, st2, st3, h2, h3, hresp⟩ :=
      newmain_generate_posts_ok_inv apiKey tr web strategyModel genModel elapsed req resp hok
    obtain ⟨c, -, hst2⟩ := strategy_phase_ok_inv strategyModel _ st2 h2
    have h0 : (0 : ℚ) ≤ st2.tokens_used := by
      rw [hst2]
      have hr0 : (NewMain.research_phase tr web (initialState req)).tokens_used = 0 :=
        (newmain_research_frame tr web (initialState req)).2.2.2.2.2.2
      show 0 ≤ (NewMain.research_phase tr web (initialState req)).tokens_used
          + (pyWordCount c : ℚ) * (13 / 10)
      rw [hr0]
      positivity
    have h3tok := (hgen genModel st2 st3 h3).1
    have h3nonneg : (0 : ℚ) ≤ st3.tokens_used := le_trans h0 h3tok
    rw [hresp]
    show 0 ≤ pyInt st3.tokens_used
    unfold pyInt
    rw [if_pos h3nonneg]
    exact Int.floor_nonneg.mpr h3nonneg

/-- Counterexample state for C7: one post, zero initial tokens. -/
def stC7 : AgentState :=
  { topic := "ai", tone := "professional", audience := "general", length := "medium",
    include_hashtags := false, include_cta := false, post_count := 1,
    language := "english", research_data := none, post_strategy := none,
    generated_posts := [], tokens_used := 0, citations := [] }

/-- C7 counterexample: a model call that succeeds with a whitespace-only
output ("") produces a post, yet `tokens_used` does not change (the
increment is `0 × 1.3 = 0`) — so `tokens_used` does not strictly increase
with every post produced. -/
theorem tokens_strict_increase_counterexample :
    ∃ st', generation_phase (fun _ => some "") stC7 = .ok st' ∧
      st'.generated_posts.length = 1 ∧
      st'.tokens_used = stC7.tokens_used := by
  obtain ⟨st', hok, hlen⟩ := generation_phase_total (fun _ => some "") stC7 (by decide) rfl
  obtain ⟨rs, hrs, hst⟩ := generation_phase_ok_spec _ _ _ hok
  obtain ⟨hlen', hget⟩ := genPosts_ok_spec _ _ _ rs hrs
  obtain ⟨pr, hpr, hidx⟩ := hget 0 (by decide)
  rw [genIter_some_eq stC7 "" 0 (by decide) rfl] at hpr
  have hsnd : pr.2 = (pyWordCount "" : ℚ) * (13 / 10) := by
    rw [((Except.ok.injEq _ _).mp hpr).symm]
  have hrs1 : rs = [pr] := by
    have h1 : rs.length = 1 := hlen'.trans (by decide)
    obtain ⟨a, ha⟩ := List.length_eq_one.mp h1
    subst ha
    have : a = pr := by
      simp only [List.getElem?_cons_zero] at hidx
      exact (Option.some.injEq _ _).mp hidx
    rw [this]
  refine ⟨st', hok, hlen.trans (by decide), ?_⟩
  rw [hst]
  show stC7.tokens_used + (rs.map Prod.snd).sum = stC7.tokens_used
  rw [hrs1]
  simp only [List.map_cons, List.map_nil, List.sum_cons, List.sum_nil]
  rw [hsnd]
  have : pyWordCount "" = 0 := rfl
  rw [this]
  push_cast
  ring

/-- Witness state for C7. -/
def stW7 : AgentState :=
  { topic := "ai", tone := "professional", audience := "general", length := "medium",
    include_hashtags := true, include_cta := true, post_count := 1,
    language := "english", research_data := none, post_strategy := none,
    generated_posts := [], tokens_used := 0, citations := [] }

/-- Witness for C7: the strategy phase on a two-word model response adds
exactly `2 × 1.3` and does not decrease `tokens_used`. -/
theorem tokens_accounting_spec_witness :
    ∃ st', strategy_phase (.ok "hello world") stW7 = .ok st' ∧
      st'.tokens_used = stW7.tokens_used + (pyWordCount "hello world" : ℚ) * (13 / 10) ∧
      stW7.tokens_used ≤ st'.tokens_used := by
  cases h : strategy_phase (.ok "hello world") stW7 with
  | ok st' => exact ⟨st', rfl, tokens_accounting_spec.2.1 "hello world" stW7 st' h⟩
  | error e => rw [strategy_phase_ok_eq] at h; cases h

/-! ### C8 — credential check -/

/-- Request used to evaluate the credential check. -/
def reqC8 : PostRequest := { topic := "ai" }

/-- C8: with the credential absent the request is rejected eagerly — the
result is the same for every oracle behaviour, i.e. no search or model call
can influence it — and the check also fires on an empty or placeholder
value; but the reported error is the blanket wrapper's
"Generation failed: 500: OpenAI API key not configured..." detail, because
the endpoint's `except Exception` catches the credential `HTTPException`
itself and re-wraps it as a generic server error. -/
theorem config_error_wrapped :
    (∀ (toolRaises : Bool) (web : Except String (List SearchItem))
       (strategyModel : Except String String) (genModel : Nat → Option String)
       (elapsed : ℚ),
      NewMain.generate_posts none toolRaises web strategyModel genModel elapsed reqC8 =
        .error (500, "Generation failed: 500: OpenAI API key not configured. Please set OPENAI_API_KEY environment variable.")) ∧
    NewMain.keyOk none = false ∧
    NewMain.keyOk (some "") = false ∧
    NewMain.keyOk (some "your-openai-api-key-here") = false ∧
    NewMain.keyOk (some "sk-test") = true := by
  exact ⟨fun toolRaises web strategyModel genModel elapsed => rfl, rfl, rfl, rfl, rfl⟩

/-! ### C9 — `research_data` and the `search_results_used` flag -/

/-- Input state for the C9 counterexample. -/
def stC9 : AgentState :=
  { topic := "ai", tone := "professional", audience := "general", length := "medium",
    include_hashtags := true, include_cta := true, post_count := 3,
    language := "english", research_data := none, post_strategy := none,
    generated_posts := [], tokens_used := 0, citations := [] }

/-- C9 counterexample: in the `agent.py` variant a successful search stores
the tool's whole result dict in `research_data` — not a string — refuting
"research_data is a non-empty string in every branch". -/
theorem research_data_string_counterexample :
    (AgentMod.research_phase false (.ok [⟨some "T", some "L", some "S"⟩]) stC9).research_data =
      some (.dict { research_text := "Research findings for ai:\n\n" ++ "1. T\nS\n\n"
                    citations := [⟨some "T", "L", "S"⟩] }) ∧
    ((AgentMod.research_phase false (.ok [⟨some "T", some "L", some "S"⟩]) stC9).research_data.map
        ResearchVal.isStr) = some false := by
  exact ⟨rfl, rfl⟩

/-- C9 (amended): after the `agent.py` research phase, `research_data` is
set and truthy in every branch — the tool-return branches store the
(always truthy) result dict, the exception branch stores the non-empty
placeholder string — and consequently `search_results_used`, computed as
the truthiness of `research_data`, is true in every successful response of
the `main.py` variant. -/
theorem research_data_truthy_spec :
    (∀ (tr : Bool) (web : Except String (List SearchItem)) (st : AgentState),
      researchTruthy (AgentMod.research_phase tr web st).research_data = true) ∧
    (∀ (tr : Bool) (web : Except String (List SearchItem))
       (strategyModel : Except String String) (genModel : Nat → Option String)
       (elapsed : ℚ) (req : PostRequest) (resp : GenerationResponse),
      MainMod.generate_posts tr web strategyModel genModel elapsed req = .ok resp →
      resp.search_results_used = true) := by
  refine ⟨agent_research_truthy, ?_⟩
  intro tr web strategyModel genModel elapsed req resp hok
  obtain ⟨st2, st3, h2, h3, hresp⟩ :=
    mainmod_generate_posts_ok_inv tr web strategyModel genModel elapsed req resp hok
  obtain ⟨c, -, hst2⟩ := strategy_phase_ok_inv strategyModel _ st2 h2
  have h2rd : st2.research_data =
      (AgentMod.research_phase tr web (initialState req)).research_data := by
    rw [hst2]
  have h3rd : st3.research_data = st2.research_data :=
    (generation_phase_frame genModel st2 st3 h3).2.2.2.2.2.2.1
  rw [hresp]
  show researchTruthy st3.research_data = true
  rw [h3rd, h2rd]
  exact agent_research_truthy tr web (initialState req)

/-- Witness request for C9. -/
def reqW9 : PostRequest := { topic := "ai", post_count := 2 }

theorem research_data_truthy_spec_witness :
    ∃ resp, MainMod.generate_posts true (.error "x") (.ok "plan") (fun _ => none) 0 reqW9
        = .ok resp ∧ resp.search_results_used = true := by
  cases h : MainMod.generate_posts true (.error "x") (.ok "plan") (fun _ => none) 0 reqW9 with
  | ok resp =>
    exact ⟨resp, rfl,
      research_data_truthy_spec.2 true (.error "x") (.ok "plan") (fun _ => none) 0 reqW9 resp h⟩
  | error e =>
    have hok : (MainMod.generate_posts true (.error "x") (.ok "plan") (fun _ => none) 0
        reqW9).isOk = true := rfl
    rw [h] at hok
    cases hok

/-! ### C10 — the `citations` field in the `main.py` + `agent.py` variant -/

/-- C10: no stage of the `agent.py` pipeline writes `citations`: the
research phase leaves it untouched, and the strategy and generation phases
preserve it; hence every successful response of the `main.py` variant
carries the empty citations list it was initialised with, regardless of the
search outcome. -/
theorem citations_frame_spec :
    (∀ (tr : Bool) (web : Except String (List SearchItem)) (st : AgentState),
      (AgentMod.research_phase tr web st).citations = st.citations) ∧
    (∀ (strategyModel : Except String String) (st st' : AgentState),
      strategy_phase strategyModel st = .ok st' → st'.citations = st.citations) ∧
    (∀ (genModel : Nat → Option String) (st st' : AgentState),
      generation_phase genModel st = .ok st' → st'.citations = st.citations) ∧
    (∀ (tr : Bool) (web : Except String (List SearchItem))
       (strategyModel : Except String String) (genModel : Nat → Option String)
       (elapsed : ℚ) (req : PostRequest) (resp : GenerationResponse),
      MainMod.generate_posts tr web strategyModel genModel elapsed req = .ok resp →
      resp.citations = []) := by
  refine ⟨fun tr web st => (agentmod_research_frame tr web st).2.2.2.2.2.2.2, ?_, ?_, ?_⟩
  · intro strategyModel st st' h
    obtain ⟨c, -, hst⟩ := strategy_phase_ok_inv strategyModel st st' h
    rw [hst]
  · intro genModel st st' h
    exact (generation_phase_frame genModel st st' h).2.2.2.2.2.2.2
  · intro tr web strategyModel genModel elapsed req resp hok
    obtain ⟨st2, st3, h2, h3, hresp⟩ :=
      mainmod_generate_posts_ok_inv tr web strategyModel genModel elapsed req resp hok
    obtain ⟨c, -, hst2⟩ := strategy_phase_ok_inv strategyModel _ st2 h2
    have h2c : st2.citations = (AgentMod.research_phase tr web (initialState req)).citations := by
      rw [hst2]
    have h3c : st3.citations = st2.citations :=
      (generation_phase_frame genModel st2 st3 h3).2.2.2.2.2.2.2
    rw [hresp]
    show st3.citations = []
    rw [h3c, h2c, (agentmod_research_frame tr web (initialState req)).2.2.2.2.2.2.2]
    rfl

/-- Witness request for C10. -/
def reqW10 : PostRequest := { topic := "leadership", post_count := 3 }

theorem citations_frame_spec_witness :
    ∃ resp, MainMod.generate_posts true (.error "down") (.ok "plan") (fun _ => none) 0 reqW10
        = .ok resp ∧ resp.citations = [] := by
  cases h : MainMod.generate_posts true (.error "down") (.ok "plan") (fun _ => none) 0 reqW10 with
  | ok resp =>
    exact ⟨resp, rfl,
      citations_frame_spec.2.2.2 true (.error "down") (.ok "plan") (fun _ => none) 0 reqW10 resp h⟩
  | error e =>
    have hok : (MainMod.generate_posts true (.error "down") (.ok "plan") (fun _ => none) 0
        reqW10).isOk = true := rfl
    rw [h] at hok
    cases hok

/-- Request for the C2 counterexample. -/
def reqC2 : PostRequest := { topic := "ai", post_count := 1 }

/-- C2 counterexample: in the `main.py` + `agent.py` variant the tool does
degrade gracefully, but `research_phase` stores the tool's whole result
dict into `research_data`, so the first per-post prompt's
`research_data[:500]` slice raises `TypeError` and the overall request
fails (nothing extracts `research_text` in that variant) — the request
does not complete successfully even though the search failure was
recovered. -/
theorem search_failure_mainmod_counterexample :
    MainMod.generate_posts false (.error "boom") (.ok "plan") (fun _ => none) 0 reqC2 =
      .error (500, "Generation failed: unhashable type: \x27slice\x27") ∧
    Tools.search_linkedin_trends reqC2.topic (.error "boom") =
      { research_text := "Search unavailable for ai: boom", citations := [] } := by
  exact ⟨rfl, rfl⟩
